import Mathlib

/-!
Synchronous spawn, Win32 backend (`src/workarounds/workarounds-spawn-win32.c`).

A shallow embedding of `escape_char`, of the command-line construction and of the
control flow of `workarounds_spawn_sync`, and of `read_file_into_string`.

Conventions.
* A C `char` is its byte value, a natural number; a C string is the list of the bytes
  that precede its terminating NUL (so a list that represents a string holds no `0`).
* A `HANDLE` is a natural number, `0` being `NULL`.
* `size_t` and `int` quantities are natural numbers.  On the 64-bit target no `size_t`
  operation of `read_file_into_string` can wrap (a buffer of `2^63` bytes does not
  exist), and the `int` counters of the command-line construction do not wrap for
  arguments shorter than `2^31` bytes in total.  The one narrowing conversion that is reachable, `size_t` to `DWORD` in the
  third argument of `ReadFile`, is written out as `% 2^32`; the `DWORD` to `int`
  conversion of the exit code is `int_of_DWORD`.
* Every operating-system call is an oracle whose answers are fields of `Env`.
-/

namespace Spawn

/-! ## Argument quoting -/

/-- The double quote character. -/
def DQUOTE : Nat := 34

/-- The backslash character. -/
def BACKSLASH : Nat := 92

/-- The space character. -/
def SPACE : Nat := 32

/-- The horizontal tab character. -/
def TAB : Nat := 9

/-- Source `escape_char` (lines 70-95): copy `unescaped_str`, writing a backslash
    before every character equal to `to_escape`. -/
def escape_char : List Nat → Nat → List Nat
  | [], _ => []
  | c :: cs, to_escape =>
      if c = to_escape then BACKSLASH :: c :: escape_char cs to_escape
      else c :: escape_char cs to_escape

/-- The value of `sizeof(command_string)`: the buffer is `char[INT16_MAX]`. -/
def CMD_SIZE : Nat := 32767

/-- C99 `snprintf(dst, size, ...)` for an output whose full text is `s`: at most
    `size - 1` characters are stored (followed by a NUL), and the return value is the
    length of the full text, whether or not it was cut.  The result is the pair of the
    stored characters and the return value. -/
def snprintf (size : Nat) (s : List Nat) : List Nat × Nat :=
  (s.take (size - 1), s.length)

/-- The static buffer `command_string` seen as the C string it holds, together with
    the local variable `cmdstr_len`. -/
structure CmdState where
  /-- The characters stored in the buffer before the first NUL. -/
  command_string : List Nat
  /-- The running sum of the `snprintf` return values. -/
  cmdstr_len : Nat
deriving DecidableEq, Repr

/-- The text formatted for one argument after the first by `" \"%s\""` applied to the
    escaped argument. -/
def format_arg (arg : List Nat) : List Nat :=
  SPACE :: DQUOTE :: (escape_char arg DQUOTE ++ [DQUOTE])

/-- A store of `s` at `command_string + offset` (what `cmdstr_at_offset` points to):
    the string now held by the buffer. -/
def store_at (buf : List Nat) (offset : Nat) (s : List Nat) : List Nat :=
  buf.take offset ++ s

/-- The `for` loop of lines 172-177 over the arguments after the first.  The loop
    stops at the end of `argv` or at the first argument with
    `cmdstr_len + strlen(argv[arg_i]) >= sizeof(command_string)`. -/
def cmd_loop (st : CmdState) : List (List Nat) → CmdState
  | [] => st
  | arg :: rest =>
      if st.cmdstr_len + arg.length < CMD_SIZE then
        let out := snprintf (CMD_SIZE - st.cmdstr_len) (format_arg arg)
        cmd_loop ⟨store_at st.command_string st.cmdstr_len out.1, st.cmdstr_len + out.2⟩ rest
      else st

/-- Lines 168-177: the first `snprintf` of `argv[0]` followed by the loop.  The
    function is only reached with a non-empty `argv`. -/
def build_command_string : List (List Nat) → CmdState
  | [] => ⟨[], 0⟩
  | argv0 :: rest =>
      let out := snprintf CMD_SIZE argv0
      cmd_loop ⟨store_at [] 0 out.1, out.2⟩ rest

/-- Line 178, `command_string[cmdstr_len] = '\0'`, stores inside the array exactly
    when the index is below `sizeof(command_string)`. -/
def terminator_in_bounds (st : CmdState) : Bool :=
  decide (st.cmdstr_len < CMD_SIZE)

/-- The command line the claim describes, in the words of the specification: every
    double quote replaced by backslash, double quote; all other characters unchanged. -/
def spec_escape (arg : List Nat) : List Nat :=
  arg.flatMap (fun c => if c = DQUOTE then [BACKSLASH, DQUOTE] else [c])

/-- The command line the claim describes: `argv[0]` unchanged, then for each later
    argument a space, a double quote, the escaped argument, a double quote. -/
def spec_command_line : List (List Nat) → List Nat
  | [] => []
  | argv0 :: rest =>
      argv0 ++ rest.flatMap (fun arg => [SPACE, DQUOTE] ++ spec_escape arg ++ [DQUOTE])

/-! ### The command-line parsing rules of the platform

The parser belongs to the platform, not to the repository.  These are the MSVC
`argv` rules as the claim on round-tripping states them: arguments are separated by spaces or
tabs outside quotes; a run of backslashes is literal unless a double quote follows it;
`2n` backslashes and a quote give `n` backslashes and toggle the quoted mode;
`2n+1` backslashes and a quote give `n` backslashes and a literal quote. -/

/-- The state of the command-line scanner. -/
structure ParseState where
  /-- The arguments completed so far. -/
  done : List (List Nat)
  /-- The characters of the argument being read. -/
  cur : List Nat
  /-- Whether an argument has been started. -/
  in_arg : Bool
  /-- Whether the scanner is inside double quotes. -/
  in_quotes : Bool
  /-- The number of backslashes read and not yet emitted. -/
  nbs : Nat
deriving DecidableEq, Repr

/-- One character of the scan. -/
def parse_step (s : ParseState) (c : Nat) : ParseState :=
  if c = BACKSLASH then
    { s with in_arg := true, nbs := s.nbs + 1 }
  else if c = DQUOTE then
    if s.nbs % 2 = 0 then
      { s with cur := s.cur ++ List.replicate (s.nbs / 2) BACKSLASH,
               in_arg := true, in_quotes := !s.in_quotes, nbs := 0 }
    else
      { s with cur := s.cur ++ List.replicate (s.nbs / 2) BACKSLASH ++ [DQUOTE],
               in_arg := true, nbs := 0 }
  else if (c = SPACE ∨ c = TAB) ∧ s.in_quotes = false then
    if s.in_arg then
      { done := s.done ++ [s.cur ++ List.replicate s.nbs BACKSLASH],
        cur := [], in_arg := false, in_quotes := false, nbs := 0 }
    else s
  else
    { s with cur := s.cur ++ List.replicate s.nbs BACKSLASH ++ [c], in_arg := true, nbs := 0 }

/-- The end of the scan: pending backslashes are literal and an argument that was
    started is completed. -/
def parse_finish (s : ParseState) : List (List Nat) :=
  if s.in_arg then s.done ++ [s.cur ++ List.replicate s.nbs BACKSLASH] else s.done

/-- The argument list the platform rules extract from a command line. -/
def parse_command_line (cmd : List Nat) : List (List Nat) :=
  parse_finish (cmd.foldl parse_step ⟨[], [], false, false, 0⟩)

/-- No run of backslashes of the argument is directly followed by a double quote or
    ends the argument; `n` is the number of backslashes that precede the text. -/
def backslash_safe : Nat → List Nat → Bool
  | n, [] => n == 0
  | n, c :: cs =>
      if c = BACKSLASH then backslash_safe (n + 1) cs
      else if c = DQUOTE then n == 0 && backslash_safe 0 cs
      else backslash_safe 0 cs

/-- A program name that the scanner reads as one word: no space, tab or double quote. -/
def plain_word (w : List Nat) : Bool :=
  w.all (fun c => decide (c ≠ SPACE ∧ c ≠ TAB ∧ c ≠ DQUOTE))

/-! ## Output draining -/

/-- One call of `ReadFile` made by `read_file_into_string`, with the values of the
    local variables when the call is made. -/
structure ReadCall where
  /-- The local `alloc_size`, the capacity of the buffer, when the call is made. -/
  alloc_size : Nat
  /-- The local `buf_len`, the logical length and the store offset, when the call is made. -/
  buf_len : Nat
  /-- The third argument as the callee receives it: `alloc_size - buf_len` converted to `DWORD`. -/
  nNumberOfBytesToRead : Nat
  /-- What the call answered: `none` for `FALSE`, `some n` for `TRUE` with `n` bytes stored. -/
  amt_read_once : Option Nat
deriving DecidableEq, Repr

/-- What `read_file_into_string` returns and the calls of `ReadFile` it made. -/
structure ReadResult where
  /-- The returned pointer: `none` is `NULL`, `some bytes` a buffer holding `bytes`. -/
  value : Option (List Nat)
  /-- The `ReadFile` calls in the order they were made. -/
  calls : List ReadCall
deriving DecidableEq, Repr

/-- The loop of lines 40-51 followed by lines 53-67.

    `reads` is the answer of the pipe: the data of the successive successful `ReadFile`
    calls, after which `ReadFile` fails (the write end is closed).  `ReadFile` stores
    at most `nNumberOfBytesToRead` bytes, so data offered beyond the request is cut.
    `realloc_ok k` tells whether the `k`-th call of `realloc` (from 0) succeeds.
    `buffer` holds the `buf_len` bytes stored so far. -/
def read_loop (realloc_ok : Nat → Bool) :
    List (List Nat) → Nat → Nat → Nat → List Nat → ReadResult
  | [], alloc_size, buf_len, k, buffer =>
      -- `ReadFile` returns FALSE: the loop ends; then `realloc(buffer, buf_len + 1)`
      let call : ReadCall := ⟨alloc_size, buf_len, (alloc_size - buf_len) % 2 ^ 32, none⟩
      if realloc_ok k then ⟨some (buffer ++ [0]), [call]⟩ else ⟨none, [call]⟩
  | chunk :: rest, alloc_size, buf_len, k, buffer =>
      let count := (alloc_size - buf_len) % 2 ^ 32
      let stored := chunk.take count
      let call : ReadCall := ⟨alloc_size, buf_len, count, some stored.length⟩
      let buf_len := buf_len + stored.length
      let buffer := buffer ++ stored
      if buf_len ≥ 3 * alloc_size / 4 then
        if realloc_ok k then
          let r := read_loop realloc_ok rest (alloc_size * 2) buf_len (k + 1) buffer
          ⟨r.value, call :: r.calls⟩
        else ⟨none, [call]⟩
      else
        let r := read_loop realloc_ok rest alloc_size buf_len k buffer
        ⟨r.value, call :: r.calls⟩

/-- Source `read_file_into_string` (lines 31-68): `alloc_size = 1024`, `buf_len = 0`.
    The first `malloc(1024)` is taken to succeed; the diagnostics written to `stderr`
    are not part of the model. -/
def read_file_into_string (reads : List (List Nat)) (realloc_ok : Nat → Bool) : ReadResult :=
  read_loop realloc_ok reads 1024 0 0 []

/-- Every successful read of the script delivers no more than was requested, the
    request being the one `read_loop` makes from capacity `alloc_size` and length
    `buf_len` (and every growth of the buffer succeeding). -/
def reads_within_request : List (List Nat) → Nat → Nat → Bool
  | [], _, _ => true
  | chunk :: rest, alloc_size, buf_len =>
      decide (chunk.length ≤ (alloc_size - buf_len) % 2 ^ 32) &&
        (if buf_len + chunk.length ≥ 3 * alloc_size / 4
         then reads_within_request rest (alloc_size * 2) (buf_len + chunk.length)
         else reads_within_request rest alloc_size (buf_len + chunk.length))

/-- A Win32 handle value; `0` is `NULL`. -/
abbrev HANDLE := Nat

/-- The `DWORD` to `int` conversion of `*exit_status = exit_status_dword`. -/
def int_of_DWORD (d : Nat) : Int :=
  if d < 2 ^ 31 then (d : Int) else (d : Int) - 2 ^ 32

/-- The answers of the operating system and of the allocator during one call. -/
structure Env where
  /-- `CreatePipe` for the child's stdin: `none` on failure, else the read and write handles. -/
  pipe_stdin : Option (HANDLE × HANDLE)
  /-- `CreatePipe` for the child's stdout. -/
  pipe_stdout : Option (HANDLE × HANDLE)
  /-- `CreatePipe` for the child's stderr. -/
  pipe_stderr : Option (HANDLE × HANDLE)
  /-- `SetHandleInformation` on the write end of the stdin pipe. -/
  set_stdin : Bool
  /-- `SetHandleInformation` on the read end of the stdout pipe. -/
  set_stdout : Bool
  /-- `SetHandleInformation` on the read end of the stderr pipe. -/
  set_stderr : Bool
  /-- `CreateProcessA`: `none` on failure, else `pi.hProcess` and `pi.hThread`. -/
  create_process : Option (HANDLE × HANDLE)
  /-- The successive successful reads of the stdout pipe; then `ReadFile` fails. -/
  stdout_reads : List (List Nat)
  /-- Whether the `k`-th `realloc` of the stdout drain succeeds. -/
  stdout_realloc : Nat → Bool
  /-- The successive successful reads of the stderr pipe; then `ReadFile` fails. -/
  stderr_reads : List (List Nat)
  /-- Whether the `k`-th `realloc` of the stderr drain succeeds. -/
  stderr_realloc : Nat → Bool
  /-- `GetExitCodeProcess`: `none` on failure, else the exit code, a `DWORD`. -/
  exit_code : Option Nat

/-- What the call does that is visible outside it, in order. -/
inductive Event where
  | CreatePipe (result : Option (HANDLE × HANDLE))
  | SetHandleInformation (h : HANDLE) (ok : Bool)
  | CreateProcessA (command_string : List Nat) (working_directory : Option (List Nat))
      (result : Option (HANDLE × HANDLE))
  | CloseHandle (h : HANDLE)
  | ReadFile (h : HANDLE) (call : ReadCall)
  | WaitForSingleObject (h : HANDLE)
  | GetExitCodeProcess (h : HANDLE) (result : Option Nat)
  | store_standard_output (v : Option (List Nat))
  | store_standard_error (v : Option (List Nat))
  | store_exit_status (v : Int)
deriving DecidableEq, Repr

/-- A location of the caller after the call: not stored to, or stored to with a value. -/
inductive OutSlot (α : Type) where
  | untouched
  | written (v : α)
deriving DecidableEq, Repr

/-- The content of a caller's location after the call, given its content before. -/
def OutSlot.after {α : Type} (s : OutSlot α) (before : α) : α :=
  match s with
  | OutSlot.untouched => before
  | OutSlot.written v => v

/-- The eight handle variables of `workarounds_spawn_sync` and the events so far. -/
structure Machine where
  pipe_proc_stdin_0 : HANDLE
  pipe_proc_stdin_1 : HANDLE
  pipe_proc_stdout_0 : HANDLE
  pipe_proc_stdout_1 : HANDLE
  pipe_proc_stderr_0 : HANDLE
  pipe_proc_stderr_1 : HANDLE
  hProcess : HANDLE
  hThread : HANDLE
  trace : List Event
deriving DecidableEq, Repr

/-- The initializers of lines 133-138: every handle variable is zero. -/
def Machine.init : Machine := ⟨0, 0, 0, 0, 0, 0, 0, 0, []⟩

/-- Appends an event. -/
def Machine.emit (m : Machine) (e : Event) : Machine :=
  { m with trace := m.trace ++ [e] }

/-- Source `close_and_invalidate_handle` (lines 97-105) on the value of `*handle_ptr`:
    the new value of `*handle_ptr` and the trace. -/
def close_and_invalidate_handle (handle : HANDLE) (trace : List Event) : HANDLE × List Event :=
  if handle ≠ 0 then (0, trace ++ [Event.CloseHandle handle]) else (handle, trace)

/-- The label `cleanup` (lines 213-221). -/
def cleanup (m : Machine) : Machine :=
  let a := close_and_invalidate_handle m.pipe_proc_stdin_0 m.trace
  let b := close_and_invalidate_handle m.pipe_proc_stdin_1 a.2
  let c := close_and_invalidate_handle m.pipe_proc_stdout_0 b.2
  let d := close_and_invalidate_handle m.pipe_proc_stdout_1 c.2
  let e := close_and_invalidate_handle m.pipe_proc_stderr_0 d.2
  let f := close_and_invalidate_handle m.pipe_proc_stderr_1 e.2
  let g := close_and_invalidate_handle m.hProcess f.2
  let h := close_and_invalidate_handle m.hThread g.2
  ⟨a.1, b.1, c.1, d.1, e.1, f.1, g.1, h.1, h.2⟩

/-- What the caller observes, and the final values of the locals. -/
structure SpawnResult where
  /-- The returned `bool`. -/
  retval : Bool
  /-- The caller's `*standard_output`. -/
  standard_output : OutSlot (Option (List Nat))
  /-- The caller's `*standard_error`. -/
  standard_error : OutSlot (Option (List Nat))
  /-- The caller's `*exit_status`. -/
  exit_status : OutSlot Int
  /-- The handle variables and the trace at the `return`. -/
  final : Machine
deriving DecidableEq, Repr

/-- Lines 194-197 for one stream: `if (out) *out = read_file_into_string(h)`.
    `requested` tells whether the caller's pointer is non-NULL; `store` is the event of
    the assignment. -/
def drain (requested : Bool) (h : HANDLE) (reads : List (List Nat)) (realloc_ok : Nat → Bool)
    (store : Option (List Nat) → Event) (trace : List Event) :
    OutSlot (Option (List Nat)) × List Event :=
  if requested then
    let r := read_file_into_string reads realloc_ok
    (OutSlot.written r.value, trace ++ r.calls.map (Event.ReadFile h) ++ [store r.value])
  else (OutSlot.untouched, trace)

/-- Lines 188-224: what follows a successful `CreateProcessA`.  `createproc_result`
    is `true` here and is what every path returns. -/
def after_create_process (m : Machine) (standard_output standard_error exit_status : Bool)
    (env : Env) : SpawnResult :=
  -- close handles that the parent process doesn't need
  let a := close_and_invalidate_handle m.pipe_proc_stdin_0 m.trace
  let b := close_and_invalidate_handle m.pipe_proc_stdout_1 a.2
  let c := close_and_invalidate_handle m.pipe_proc_stderr_1 b.2
  let m := { m with pipe_proc_stdin_0 := a.1, pipe_proc_stdout_1 := b.1,
                    pipe_proc_stderr_1 := c.1, trace := c.2 }
  -- now, read stdout and stderr into string
  let so := drain standard_output m.pipe_proc_stdout_0 env.stdout_reads env.stdout_realloc
    Event.store_standard_output m.trace
  let se := drain standard_error m.pipe_proc_stderr_0 env.stderr_reads env.stderr_realloc
    Event.store_standard_error so.2
  -- sleep until child process completes; `WaitForSingleObject` does not return
  -- `STILL_ACTIVE`, so the `while` makes one call
  let m := { m with trace := se.2 ++ [Event.WaitForSingleObject m.hProcess] }
  -- get return code
  if exit_status then
    match env.exit_code with
    | none =>
        ⟨true, so.1, se.1, OutSlot.untouched,
          cleanup (m.emit (Event.GetExitCodeProcess m.hProcess none))⟩
    | some code =>
        ⟨true, so.1, se.1, OutSlot.written (int_of_DWORD code),
          cleanup ((m.emit (Event.GetExitCodeProcess m.hProcess (some code))).emit
            (Event.store_exit_status (int_of_DWORD code)))⟩
  else
    ⟨true, so.1, se.1, OutSlot.untouched, cleanup m⟩

/-- The path `goto cleanup` taken before `createproc_result` is set: it returns
    `false` and stores nothing for the caller. -/
def fail_cleanup (m : Machine) : SpawnResult :=
  ⟨false, OutSlot.untouched, OutSlot.untouched, OutSlot.untouched, cleanup m⟩

/-- Source `workarounds_spawn_sync` (lines 117-224).  `standard_output`,
    `standard_error` and `exit_status` tell whether the caller's pointer is non-NULL;
    the function never reads what they point to. -/
def workarounds_spawn_sync (working_directory : Option (List Nat)) (argv : List (List Nat))
    (standard_output standard_error exit_status : Bool) (env : Env) : SpawnResult :=
  match argv with
  | [] => ⟨false, OutSlot.untouched, OutSlot.untouched, OutSlot.untouched, Machine.init⟩
  | _ :: _ =>
    match env.pipe_stdin with
    | none =>
        ⟨false, OutSlot.untouched, OutSlot.untouched, OutSlot.untouched,
          Machine.init.emit (Event.CreatePipe none)⟩
    | some p_in =>
      let m := { Machine.init with pipe_proc_stdin_0 := p_in.1, pipe_proc_stdin_1 := p_in.2 }
      let m := m.emit (Event.CreatePipe (some p_in))
      match env.pipe_stdout with
      | none => fail_cleanup (m.emit (Event.CreatePipe none))
      | some p_out =>
        let m := { m with pipe_proc_stdout_0 := p_out.1, pipe_proc_stdout_1 := p_out.2 }
        let m := m.emit (Event.CreatePipe (some p_out))
        match env.pipe_stderr with
        | none => fail_cleanup (m.emit (Event.CreatePipe none))
        | some p_err =>
          let m := { m with pipe_proc_stderr_0 := p_err.1, pipe_proc_stderr_1 := p_err.2 }
          let m := m.emit (Event.CreatePipe (some p_err))
          let m := m.emit (Event.SetHandleInformation m.pipe_proc_stdin_1 env.set_stdin)
          if env.set_stdin = false then fail_cleanup m else
          let m := m.emit (Event.SetHandleInformation m.pipe_proc_stdout_0 env.set_stdout)
          if env.set_stdout = false then fail_cleanup m else
          let m := m.emit (Event.SetHandleInformation m.pipe_proc_stderr_0 env.set_stderr)
          if env.set_stderr = false then fail_cleanup m else
          let cmd := build_command_string argv
          let m := m.emit
            (Event.CreateProcessA cmd.command_string working_directory env.create_process)
          match env.create_process with
          | none => fail_cleanup m
          | some pi =>
            after_create_process { m with hProcess := pi.1, hThread := pi.2 }
              standard_output standard_error exit_status env

/-- The handles the operating system handed out, in order. -/
def opened_handles : List Event → List HANDLE
  | [] => []
  | Event.CreatePipe (some p) :: t => p.1 :: p.2 :: opened_handles t
  | Event.CreateProcessA _ _ (some p) :: t => p.1 :: p.2 :: opened_handles t
  | _ :: t => opened_handles t

/-- The handles passed to `CloseHandle`, in order. -/
def closed_handles : List Event → List HANDLE
  | [] => []
  | Event.CloseHandle h :: t => h :: closed_handles t
  | _ :: t => closed_handles t

/-- The handle values an environment can hand out. -/
def Env.issued (env : Env) : List HANDLE :=
  let pair : Option (HANDLE × HANDLE) → List HANDLE := fun o =>
    match o with
    | none => []
    | some p => [p.1, p.2]
  pair env.pipe_stdin ++ pair env.pipe_stdout ++ pair env.pipe_stderr ++ pair env.create_process

/-- All eight handle variables are `NULL`. -/
def Machine.all_null (m : Machine) : Prop :=
  m.pipe_proc_stdin_0 = 0 ∧ m.pipe_proc_stdin_1 = 0 ∧ m.pipe_proc_stdout_0 = 0 ∧
  m.pipe_proc_stdout_1 = 0 ∧ m.pipe_proc_stderr_0 = 0 ∧ m.pipe_proc_stderr_1 = 0 ∧
  m.hProcess = 0 ∧ m.hThread = 0

/-- Whether the event is a wait for the child. -/
def Event.is_wait : Event → Bool
  | Event.WaitForSingleObject _ => true
  | _ => false

/-- Whether the event is a `ReadFile` on `h`. -/
def Event.is_read_of (h : HANDLE) : Event → Bool
  | Event.ReadFile h1 _ => decide (h1 = h)
  | _ => false

/-- Whether the event is a store to one of the caller's three locations. -/
def Event.is_store : Event → Bool
  | Event.store_standard_output _ => true
  | Event.store_standard_error _ => true
  | Event.store_exit_status _ => true
  | _ => false

/-- The pipe read through `h` is read to its end before the wait: a `ReadFile` on `h`
    that fails (the end of the stream) occurs, no wait precedes it and a wait follows. -/
def drained_before_wait (h : HANDLE) : List Event → Bool
  | [] => false
  | Event.WaitForSingleObject _ :: _ => false
  | Event.ReadFile h1 call :: t =>
      if h1 = h ∧ call.amt_read_once = none then t.any Event.is_wait
      else drained_before_wait h t
  | _ :: t => drained_before_wait h t

/-- An environment in which every call succeeds: the child writes `hello` and a
    newline to stdout in two reads, nothing to stderr, and exits with code 0. -/
def env_hello : Env :=
  { pipe_stdin := some (11, 12), pipe_stdout := some (21, 22), pipe_stderr := some (31, 32),
    set_stdin := true, set_stdout := true, set_stderr := true,
    create_process := some (41, 42),
    stdout_reads := [[104, 101, 108], [108, 111, 10]], stdout_realloc := fun _ => true,
    stderr_reads := [], stderr_realloc := fun _ => true,
    exit_code := some 0 }

/-- Every step up to and including process creation succeeds. -/
def Env.process_created (env : Env) : Prop :=
  env.pipe_stdin.isSome = true ∧ env.pipe_stdout.isSome = true ∧ env.pipe_stderr.isSome = true ∧
  env.set_stdin = true ∧ env.set_stdout = true ∧ env.set_stderr = true ∧
  env.create_process.isSome = true

/-- The events of lines 194-197 for one stream (see `drain`). -/
def drain_events (requested : Bool) (h : HANDLE) (reads : List (List Nat))
    (realloc_ok : Nat → Bool) (store : Option (List Nat) → Event) : List Event :=
  if requested then
    (read_file_into_string reads realloc_ok).calls.map (Event.ReadFile h) ++
      [store (read_file_into_string reads realloc_ok).value]
  else []

/-- The event of one `close_and_invalidate_handle` on a variable holding `h`. -/
def close_events (h : HANDLE) : List Event :=
  if h ≠ 0 then [Event.CloseHandle h] else []

/-- The events of lines 204-211 (see `after_create_process`). -/
def exit_events (exit_status : Bool) (hProcess : HANDLE) (env : Env) : List Event :=
  if exit_status then
    match env.exit_code with
    | none => [Event.GetExitCodeProcess hProcess none]
    | some code =>
        [Event.GetExitCodeProcess hProcess (some code),
         Event.store_exit_status (int_of_DWORD code)]
  else []

/-- A failure of one of the steps that precede the drain: a pipe creation, a change
    of the inheritance flag, or the process creation. -/
def Event.is_setup_failure : Event → Bool
  | Event.CreatePipe none => true
  | Event.SetHandleInformation _ false => true
  | Event.CreateProcessA _ _ none => true
  | _ => false

/-- A failure that follows the process creation: the exit-code query fails, or a
    drain returns NULL because a reallocation failed. -/
def Event.is_late_failure : Event → Bool
  | Event.GetExitCodeProcess _ none => true
  | Event.store_standard_output none => true
  | Event.store_standard_error none => true
  | _ => false

/-- Whether the event is a `ReadFile`. -/
def Event.is_read : Event → Bool
  | Event.ReadFile _ _ => true
  | _ => false

/-- The events of the set-up and of the tear-down: pipe creation, inheritance flags,
    process creation, and the closing of a handle. -/
def Event.is_plumbing : Event → Bool
  | Event.CreatePipe _ => true
  | Event.SetHandleInformation _ _ => true
  | Event.CreateProcessA _ _ _ => true
  | Event.CloseHandle _ => true
  | _ => false

/-- The run of `env_hello` in which the exit-code query fails. -/
def env_exit_code_fails : Env := { env_hello with exit_code := none }

/-- The run of `env_hello` in which every reallocation of the stdout drain fails. -/
def env_realloc_fails : Env := { env_hello with stdout_realloc := fun _ => false }

/-- The run of `env_hello` in which the child exits with code `4294967295`
    (`0xFFFFFFFF`), every call succeeding. -/
def env_high_exit_code : Env := { env_hello with exit_code := some 4294967295 }

/-- The run of `env_hello` in which the executable cannot be started. -/
def env_no_process : Env := { env_hello with create_process := none }

/-- The run of `env_hello` in which the first read of the stdout pipe delivers 768
    bytes, more data follows, and the reallocation that grows the buffer fails. -/
def env_growth_fails : Env :=
  { env_hello with stdout_reads := [List.replicate 768 120, [10]],
                   stdout_realloc := fun _ => false }

end Spawn

namespace Spawn

/-! ## Argument quoting: proofs -/

theorem escape_char_eq_spec_escape (arg : List Nat) :
    escape_char arg DQUOTE = spec_escape arg := by
  induction arg with
  | nil => rfl
  | cons c cs ih =>
    by_cases h : c = DQUOTE
    · simp [escape_char, spec_escape, h] at ih ⊢
      exact ih
    · simp [escape_char, spec_escape, h] at ih ⊢
      exact ih

theorem spec_escape_of_not_mem (arg : List Nat) (h : DQUOTE ∉ arg) : spec_escape arg = arg := by
  induction arg with
  | nil => rfl
  | cons c cs ih =>
    have hc : c ≠ DQUOTE := fun e => h (by simp [e])
    have hcs : DQUOTE ∉ cs := fun e => h (by simp [e])
    simp [spec_escape, hc] at ih ⊢
    exact ih hcs

/-- The text appended for one later argument, in the words of the specification. -/
theorem format_arg_eq (arg : List Nat) :
    format_arg arg = [SPACE, DQUOTE] ++ spec_escape arg ++ [DQUOTE] := by
  simp [format_arg, escape_char_eq_spec_escape]

theorem length_le_format_arg (arg : List Nat) : arg.length + 3 ≤ (format_arg arg).length := by
  have h : arg.length ≤ (escape_char arg DQUOTE).length := by
    induction arg with
    | nil => simp [escape_char]
    | cons c cs ih =>
      by_cases hc : c = DQUOTE <;> simp [escape_char, hc] <;> omega
  simp [format_arg]
  omega

/-- While everything fits, the loop appends the formatted arguments one after the other. -/
theorem cmd_loop_fits (rest : List (List Nat)) (st : CmdState)
    (hlen : st.command_string.length = st.cmdstr_len)
    (hfit : st.cmdstr_len + (rest.flatMap format_arg).length + 1 ≤ CMD_SIZE) :
    cmd_loop st rest =
      ⟨st.command_string ++ rest.flatMap format_arg,
       st.cmdstr_len + (rest.flatMap format_arg).length⟩ := by
  induction rest generalizing st with
  | nil => simp [cmd_loop]
  | cons arg rest ih =>
    have h3 := length_le_format_arg arg
    simp only [List.flatMap_cons, List.length_append] at hfit
    have hguard : st.cmdstr_len + arg.length < CMD_SIZE := by omega
    have htake : (format_arg arg).take (CMD_SIZE - st.cmdstr_len - 1) = format_arg arg :=
      List.take_of_length_le (by omega)
    have hstore : store_at st.command_string st.cmdstr_len (format_arg arg)
        = st.command_string ++ format_arg arg := by
      simp [store_at, ← hlen]
    rw [cmd_loop, if_pos hguard]
    simp only [snprintf, htake, hstore]
    rw [ih]
    · simp [List.flatMap_cons, Nat.add_assoc]
    · simp [hlen]
    · simp only []
      omega

theorem build_command_string_fits (argv0 : List Nat) (rest : List (List Nat))
    (hfit : argv0.length + (rest.flatMap format_arg).length + 1 ≤ CMD_SIZE) :
    build_command_string (argv0 :: rest) =
      ⟨argv0 ++ rest.flatMap format_arg, argv0.length + (rest.flatMap format_arg).length⟩ := by
  have htake : argv0.take (CMD_SIZE - 1) = argv0 := List.take_of_length_le (by omega)
  simp only [build_command_string, snprintf, htake, store_at, List.take_nil, List.nil_append]
  rw [cmd_loop_fits rest ⟨argv0, argv0.length⟩ rfl hfit]

theorem spec_command_line_cons (argv0 : List Nat) (rest : List (List Nat)) :
    spec_command_line (argv0 :: rest) = argv0 ++ rest.flatMap format_arg := by
  have h : (fun arg => [SPACE, DQUOTE] ++ spec_escape arg ++ [DQUOTE]) = format_arg := by
    funext arg
    exact (format_arg_eq arg).symm
  simp only [spec_command_line, h]

/-- C5: for a non-empty `argv` whose formatted form has length at most 32766, the
    command string built by `workarounds_spawn_sync` is `argv[0]` unchanged followed, for
    each later argument in order, by a space, a double quote, the argument with every
    double quote replaced by backslash-double-quote, and a double quote; `cmdstr_len` is
    its length and the terminator is stored inside the buffer.  So `[prog]` gives `prog`,
    and an argument without a double quote appears unchanged between the quotes. -/
theorem command_string_is_quoted_argv (argv : List (List Nat)) (hne : argv ≠ [])
    (hfit : (spec_command_line argv).length ≤ 32766) :
    (build_command_string argv).command_string = spec_command_line argv ∧
    (build_command_string argv).cmdstr_len = (spec_command_line argv).length ∧
    terminator_in_bounds (build_command_string argv) = true ∧
    (∀ prog, argv = [prog] → (build_command_string argv).command_string = prog) ∧
    (∀ arg, DQUOTE ∉ arg → spec_escape arg = arg) := by
  cases argv with
  | nil => exact absurd rfl hne
  | cons argv0 rest =>
    rw [spec_command_line_cons] at hfit ⊢
    have hfit2 : argv0.length + (rest.flatMap format_arg).length + 1 ≤ CMD_SIZE := by
      simp only [List.length_append] at hfit
      simp only [CMD_SIZE]
      omega
    rw [build_command_string_fits argv0 rest hfit2]
    refine ⟨rfl, by simp, ?_, ?_, spec_escape_of_not_mem⟩
    · simp only [terminator_in_bounds, decide_eq_true_eq]
      omega
    · intro prog h
      simp only [List.cons.injEq] at h
      simp [h.1, h.2]

/-- The witness of C5: the program `p` with the arguments `a b` and `c"d`. -/
theorem command_string_is_quoted_argv_witness :
    [[112], [97, 32, 98], [99, 34, 100]] ≠ ([] : List (List Nat)) ∧
    (spec_command_line [[112], [97, 32, 98], [99, 34, 100]]).length ≤ 32766 ∧
    (build_command_string [[112], [97, 32, 98], [99, 34, 100]]).command_string
      = spec_command_line [[112], [97, 32, 98], [99, 34, 100]] ∧
    spec_command_line [[112], [97, 32, 98], [99, 34, 100]]
      = [112, 32, 34, 97, 32, 98, 34, 32, 34, 99, 92, 34, 100, 34] :=
  ⟨by decide, by decide,
   (command_string_is_quoted_argv [[112], [97, 32, 98], [99, 34, 100]]
      (by decide) (by decide)).1,
   by decide⟩

theorem escape_char_of_not_mem (s : List Nat) (e : Nat) (h : e ∉ s) : escape_char s e = s := by
  induction s with
  | nil => rfl
  | cons c cs ih =>
    have hc : c ≠ e := fun q => h (by simp [q])
    have hcs : e ∉ cs := fun q => h (by simp [q])
    simp [escape_char, hc, ih hcs]

/-- One argument of 32765 characters without a double quote after a one-character
    program name. -/
theorem build_long_argument (c : Nat) (arg : List Nat) (hq : DQUOTE ∉ arg)
    (hlen : arg.length = 32765) :
    (build_command_string [[c], arg]).cmdstr_len = 32769 ∧
    (build_command_string [[c], arg]).command_string.length = 32766 := by
  have hesc : escape_char arg DQUOTE = arg := escape_char_of_not_mem _ _ hq
  have hguard : 1 + arg.length < CMD_SIZE := by
    rw [hlen]
    decide
  simp only [build_command_string, cmd_loop, snprintf, store_at, format_arg, hesc,
    List.length_singleton, if_pos hguard, List.take_nil, List.nil_append, List.length_cons,
    List.length_append, hlen, CMD_SIZE, List.length_take]
  constructor
  · rfl
  · simp [List.length_take, hlen]

/-- C6 (the code leaves the buffer): with `argv[0] = "p"` and one argument of 32765
    letters `x`, the loop guard `1 + 32765 < 32767` holds, `snprintf` stores 32765
    characters and returns 32768, so `cmdstr_len` becomes 32769 and the store
    `command_string[cmdstr_len] = 0` of line 178 is outside the 32767-byte array. -/
theorem cmdstr_len_exceeds_buffer :
    (build_command_string [[112], List.replicate 32765 120]).cmdstr_len = 32769 ∧
    (build_command_string [[112], List.replicate 32765 120]).command_string.length = 32766 ∧
    terminator_in_bounds (build_command_string [[112], List.replicate 32765 120]) = false := by
  have hq : DQUOTE ∉ List.replicate 32765 120 := by
    intro h
    have := List.eq_of_mem_replicate h
    exact absurd this (by decide)
  have h := build_long_argument 112 (List.replicate 32765 120) hq (List.length_replicate _ _)
  refine ⟨h.1, h.2, ?_⟩
  rw [terminator_in_bounds, h.1]
  decide

/-- C4 (the code does not round-trip): for `argv = ["p", "a\"]`, whose second argument
    is the letter `a` followed by one backslash, the command string built is
    `p "a\"` (p, space, quote, a, backslash, quote), and the platform rules read it as
    the program `p` and the argument `a"`, not as `argv`. -/
theorem trailing_backslash_not_round_trip :
    (build_command_string [[112], [97, 92]]).command_string = [112, 32, 34, 97, 92, 34] ∧
    parse_command_line (build_command_string [[112], [97, 92]]).command_string
      = [[112], [97, 34]] ∧
    parse_command_line (build_command_string [[112], [97, 92]]).command_string
      ≠ [[112], [97, 92]] := by
  decide

/-! ### The scanner on command lines the code builds -/

/-- Inside quotes, the escaped form of a safe argument is read back as the argument. -/
theorem parse_escaped_in_quotes (arg : List Nat) :
    ∀ (done : List (List Nat)) (cur : List Nat) (n : Nat), backslash_safe n arg = true →
      (escape_char arg DQUOTE).foldl parse_step ⟨done, cur, true, true, n⟩ =
        ⟨done, cur ++ List.replicate n BACKSLASH ++ arg, true, true, 0⟩ := by
  induction arg with
  | nil =>
    intro done cur n h
    simp [backslash_safe] at h
    simp [escape_char, h]
  | cons c cs ih =>
    intro done cur n h
    by_cases hb : c = BACKSLASH
    · subst hb
      have h2 : backslash_safe (n + 1) cs = true := by simpa [backslash_safe] using h
      have hne : BACKSLASH ≠ DQUOTE := by decide
      simp only [escape_char, if_neg hne, List.foldl_cons]
      have hstep : parse_step ⟨done, cur, true, true, n⟩ BACKSLASH
          = ⟨done, cur, true, true, n + 1⟩ := by
        simp [parse_step]
      rw [hstep, ih done cur (n + 1) h2]
      simp [List.replicate_succ', List.append_assoc]
    · by_cases hq : c = DQUOTE
      · subst hq
        have h2 : n = 0 ∧ backslash_safe 0 cs = true := by
          simpa [backslash_safe, hb] using h
        obtain ⟨hn, h3⟩ := h2
        subst hn
        simp only [escape_char, if_true, List.foldl_cons]
        have hstep1 : parse_step ⟨done, cur, true, true, 0⟩ BACKSLASH
            = ⟨done, cur, true, true, 1⟩ := by
          simp [parse_step]
        have hstep2 : parse_step ⟨done, cur, true, true, 1⟩ DQUOTE
            = ⟨done, cur ++ [DQUOTE], true, true, 0⟩ := by
          simp [parse_step, hb]
        rw [hstep1, hstep2, ih done (cur ++ [DQUOTE]) 0 h3]
        simp
      · have h2 : backslash_safe 0 cs = true := by
          simpa [backslash_safe, hb, hq] using h
        simp only [escape_char, if_neg hq, List.foldl_cons]
        have hstep : parse_step ⟨done, cur, true, true, n⟩ c
            = ⟨done, cur ++ List.replicate n BACKSLASH ++ [c], true, true, 0⟩ := by
          simp [parse_step, hb, hq]
        rw [hstep, ih done _ 0 h2]
        simp

/-- One quoted argument, read after a completed word: the word is closed and the
    argument becomes the word being read. -/
theorem parse_format_arg (arg : List Nat) (done : List (List Nat)) (cur : List Nat) (n : Nat)
    (h : backslash_safe 0 arg = true) :
    (format_arg arg).foldl parse_step ⟨done, cur, true, false, n⟩ =
      ⟨done ++ [cur ++ List.replicate n BACKSLASH], arg, true, false, 0⟩ := by
  have hsb : SPACE ≠ BACKSLASH := by decide
  have hsq : SPACE ≠ DQUOTE := by decide
  have hqb : DQUOTE ≠ BACKSLASH := by decide
  have hstep1 : parse_step ⟨done, cur, true, false, n⟩ SPACE
      = ⟨done ++ [cur ++ List.replicate n BACKSLASH], [], false, false, 0⟩ := by
    simp [parse_step, hsb, hsq]
  have hstep2 : parse_step ⟨done ++ [cur ++ List.replicate n BACKSLASH], [], false, false, 0⟩
      DQUOTE = ⟨done ++ [cur ++ List.replicate n BACKSLASH], [], true, true, 0⟩ := by
    simp [parse_step, hqb]
  have hstep3 : parse_step ⟨done ++ [cur ++ List.replicate n BACKSLASH], arg, true, true, 0⟩
      DQUOTE = ⟨done ++ [cur ++ List.replicate n BACKSLASH], arg, true, false, 0⟩ := by
    simp [parse_step, hqb]
  simp only [format_arg, List.foldl_cons, List.foldl_append, List.foldl_nil, hstep1, hstep2]
  rw [parse_escaped_in_quotes arg _ [] 0 h]
  simpa using hstep3

/-- The quoted arguments, read after a completed word. -/
theorem parse_format_args (rest : List (List Nat)) :
    ∀ (done : List (List Nat)) (cur : List Nat) (n : Nat),
      (∀ arg ∈ rest, backslash_safe 0 arg = true) →
      parse_finish ((rest.flatMap format_arg).foldl parse_step ⟨done, cur, true, false, n⟩) =
        done ++ [cur ++ List.replicate n BACKSLASH] ++ rest := by
  induction rest with
  | nil =>
    intro done cur n _
    simp [parse_finish]
  | cons arg rest ih =>
    intro done cur n h
    have ha := h arg (List.mem_cons_self _ _)
    have hr : ∀ x ∈ rest, backslash_safe 0 x = true :=
      fun x hx => h x (List.mem_cons_of_mem _ hx)
    rw [List.flatMap_cons, List.foldl_append, parse_format_arg arg done cur n ha, ih _ _ _ hr]
    simp

/-- A word without space, tab and double quote is read as the start of one word. -/
theorem parse_plain_word (w : List Nat) :
    ∀ (cur : List Nat) (n : Nat) (started : Bool), plain_word w = true →
      ∃ cur1 n1, w.foldl parse_step ⟨[], cur, started, false, n⟩
          = ⟨[], cur1, started || !w.isEmpty, false, n1⟩ ∧
        cur1 ++ List.replicate n1 BACKSLASH = cur ++ List.replicate n BACKSLASH ++ w := by
  induction w with
  | nil =>
    intro cur n started _
    exact ⟨cur, n, by simp, by simp⟩
  | cons c cs ih =>
    intro cur n started h
    simp only [plain_word, List.all_cons, Bool.and_eq_true, decide_eq_true_eq] at h
    obtain ⟨⟨hs, ht, hq⟩, hcs⟩ := h
    by_cases hb : c = BACKSLASH
    · subst hb
      have hstep : parse_step ⟨[], cur, started, false, n⟩ BACKSLASH
          = ⟨[], cur, true, false, n + 1⟩ := by
        simp [parse_step]
      obtain ⟨cur1, n1, h1, h2⟩ := ih cur (n + 1) true hcs
      refine ⟨cur1, n1, ?_, ?_⟩
      · simp only [List.foldl_cons, hstep, h1]
        simp
      · rw [h2]
        simp [List.replicate_succ', List.append_assoc]
    · have hstep : parse_step ⟨[], cur, started, false, n⟩ c
          = ⟨[], cur ++ List.replicate n BACKSLASH ++ [c], true, false, 0⟩ := by
        simp [parse_step, hb, hq, hs, ht]
      obtain ⟨cur1, n1, h1, h2⟩ := ih (cur ++ List.replicate n BACKSLASH ++ [c]) 0 true hcs
      refine ⟨cur1, n1, ?_, ?_⟩
      · simp only [List.foldl_cons, hstep, h1]
        simp
      · rw [h2]
        simp

/-- Where the quoting does work: when the formatted form fits the buffer, `argv[0]`
    is non-empty and holds no space, tab or double quote, and in no later argument a
    backslash directly precedes a double quote or ends the argument, the platform
    rules read the command string back as `argv`. -/
theorem parse_build_round_trip (argv0 : List Nat) (rest : List (List Nat))
    (hfit : (spec_command_line (argv0 :: rest)).length ≤ 32766)
    (hne : argv0 ≠ []) (hplain : plain_word argv0 = true)
    (hsafe : ∀ arg ∈ rest, backslash_safe 0 arg = true) :
    parse_command_line (build_command_string (argv0 :: rest)).command_string
      = argv0 :: rest := by
  rw [spec_command_line_cons] at hfit
  have hfit2 : argv0.length + (rest.flatMap format_arg).length + 1 ≤ CMD_SIZE := by
    simp only [List.length_append] at hfit
    simp only [CMD_SIZE]
    omega
  rw [build_command_string_fits argv0 rest hfit2]
  obtain ⟨cur1, n1, h1, h2⟩ := parse_plain_word argv0 [] 0 false hplain
  have hstarted : (false || !argv0.isEmpty) = true := by
    cases argv0 with
    | nil => exact absurd rfl hne
    | cons c cs => rfl
  rw [hstarted] at h1
  simp only [parse_command_line, List.foldl_append, h1]
  rw [parse_format_args rest [] cur1 n1 hsafe, h2]
  simp

/-- An instance of the round trip: the program `p` with the arguments `a b`, `c"d`,
    the empty argument and `e\f` (a backslash between two letters). -/
theorem parse_build_round_trip_instance :
    parse_command_line
      (build_command_string [[112], [97, 32, 98], [99, 34, 100], [], [101, 92, 102]]).command_string
      = [[112], [97, 32, 98], [99, 34, 100], [], [101, 92, 102]] :=
  parse_build_round_trip [112] [[97, 32, 98], [99, 34, 100], [], [101, 92, 102]]
    (by decide) (by decide) (by decide) (by decide)

/-! ## Output draining: proofs -/

/-- When every `realloc` succeeds and no read delivers more than requested, the
    returned buffer is what was already stored, then the data read, then one NUL. -/
theorem read_loop_value (f : Nat → Bool) (hf : ∀ j, f j = true) (reads : List (List Nat)) :
    ∀ (a l k : Nat) (buf : List Nat), reads_within_request reads a l = true →
      (read_loop f reads a l k buf).value = some (buf ++ reads.flatten ++ [0]) := by
  induction reads with
  | nil =>
    intro a l k buf _
    simp [read_loop, hf]
  | cons chunk rest ih =>
    intro a l k buf h
    simp only [reads_within_request, Bool.and_eq_true, decide_eq_true_eq] at h
    have htake : chunk.take ((a - l) % 2 ^ 32) = chunk := List.take_of_length_le h.1
    simp only [read_loop, htake, hf, if_true]
    by_cases hge : l + chunk.length ≥ 3 * a / 4
    · have h2 := h.2
      rw [if_pos hge] at h2
      rw [if_pos hge]
      simp [ih _ _ _ _ h2]
    · have h2 := h.2
      rw [if_neg hge] at h2
      rw [if_neg hge]
      simp [ih _ _ _ _ h2]

theorem read_file_into_string_value (reads : List (List Nat)) (f : Nat → Bool)
    (hf : ∀ j, f j = true) (h : reads_within_request reads 1024 0 = true) :
    (read_file_into_string reads f).value = some (reads.flatten ++ [0]) := by
  simpa [read_file_into_string] using read_loop_value f hf reads 1024 0 0 [] h

/-! ## The spawn operation: proofs -/

theorem after_create_process_retval (m : Machine) (so se es : Bool) (env : Env) :
    (after_create_process m so se es env).retval = true := by
  unfold after_create_process
  cases es
  · simp
  · cases h : env.exit_code <;> simp

theorem retval_iff (wd : Option (List Nat)) (a : List Nat) (t : List (List Nat))
    (so se es : Bool) (env : Env) :
    (workarounds_spawn_sync wd (a :: t) so se es env).retval = true ↔ env.process_created := by
  unfold workarounds_spawn_sync Env.process_created
  cases h1 : env.pipe_stdin <;> simp
  cases h2 : env.pipe_stdout <;> simp [fail_cleanup]
  cases h3 : env.pipe_stderr <;> simp [fail_cleanup]
  cases h4 : env.set_stdin <;> simp [fail_cleanup]
  cases h5 : env.set_stdout <;> simp [fail_cleanup]
  cases h6 : env.set_stderr <;> simp [fail_cleanup]
  cases h7 : env.create_process <;> simp [fail_cleanup, after_create_process_retval]

theorem closed_handles_append (s t : List Event) :
    closed_handles (s ++ t) = closed_handles s ++ closed_handles t := by
  induction s with
  | nil => rfl
  | cons e s ih => cases e <;> simp [closed_handles, ih]

theorem opened_handles_append (s t : List Event) :
    opened_handles (s ++ t) = opened_handles s ++ opened_handles t := by
  induction s with
  | nil => rfl
  | cons e s ih =>
    cases e with
    | CreatePipe r => cases r <;> simp [opened_handles, ih]
    | CreateProcessA c w r => cases r <;> simp [opened_handles, ih]
    | _ => simp [opened_handles, ih]

theorem drain_eq (requested : Bool) (h : HANDLE) (reads : List (List Nat))
    (f : Nat → Bool) (store : Option (List Nat) → Event) (t : List Event) :
    (drain requested h reads f store t).2 = t ++ drain_events requested h reads f store := by
  cases requested <;> simp [drain, drain_events]

theorem closed_handles_reads (h : HANDLE) (cs : List ReadCall) :
    closed_handles (cs.map (Event.ReadFile h)) = [] := by
  induction cs with
  | nil => rfl
  | cons c cs ih => simp [closed_handles, ih]

theorem opened_handles_reads (h : HANDLE) (cs : List ReadCall) :
    opened_handles (cs.map (Event.ReadFile h)) = [] := by
  induction cs with
  | nil => rfl
  | cons c cs ih => simp [opened_handles, ih]

theorem closed_handles_drain_std_out (requested : Bool) (h : HANDLE) (reads : List (List Nat))
    (f : Nat → Bool) :
    closed_handles (drain_events requested h reads f Event.store_standard_output) = [] := by
  cases requested <;>
    simp [drain_events, closed_handles_append, closed_handles_reads, closed_handles]

theorem closed_handles_drain_std_err (requested : Bool) (h : HANDLE) (reads : List (List Nat))
    (f : Nat → Bool) :
    closed_handles (drain_events requested h reads f Event.store_standard_error) = [] := by
  cases requested <;>
    simp [drain_events, closed_handles_append, closed_handles_reads, closed_handles]

theorem opened_handles_drain_std_out (requested : Bool) (h : HANDLE) (reads : List (List Nat))
    (f : Nat → Bool) :
    opened_handles (drain_events requested h reads f Event.store_standard_output) = [] := by
  cases requested <;>
    simp [drain_events, opened_handles_append, opened_handles_reads, opened_handles]

theorem opened_handles_drain_std_err (requested : Bool) (h : HANDLE) (reads : List (List Nat))
    (f : Nat → Bool) :
    opened_handles (drain_events requested h reads f Event.store_standard_error) = [] := by
  cases requested <;>
    simp [drain_events, opened_handles_append, opened_handles_reads, opened_handles]

theorem close_and_invalidate_handle_eq (h : HANDLE) (t : List Event) :
    close_and_invalidate_handle h t = (0, t ++ close_events h) := by
  by_cases hh : h = 0 <;> simp [close_and_invalidate_handle, close_events, hh]

theorem close_events_zero : close_events 0 = [] := rfl

theorem close_events_of_ne_zero (h : HANDLE) (hh : h ≠ 0) :
    close_events h = [Event.CloseHandle h] := by
  simp [close_events, hh]

/-- The label `cleanup` closes every non-NULL handle variable once, in order, and
    leaves all eight variables NULL. -/
theorem cleanup_eq (m : Machine) :
    cleanup m = ⟨0, 0, 0, 0, 0, 0, 0, 0,
      m.trace ++ close_events m.pipe_proc_stdin_0 ++ close_events m.pipe_proc_stdin_1 ++
        close_events m.pipe_proc_stdout_0 ++ close_events m.pipe_proc_stdout_1 ++
        close_events m.pipe_proc_stderr_0 ++ close_events m.pipe_proc_stderr_1 ++
        close_events m.hProcess ++ close_events m.hThread⟩ := by
  simp only [cleanup, close_and_invalidate_handle_eq]

theorem closed_handles_exit_events (es : Bool) (h : HANDLE) (env : Env) :
    closed_handles (exit_events es h env) = [] := by
  cases es
  · rfl
  · cases hc : env.exit_code <;> simp [exit_events, hc, closed_handles]

theorem opened_handles_exit_events (es : Bool) (h : HANDLE) (env : Env) :
    opened_handles (exit_events es h env) = [] := by
  cases es
  · rfl
  · cases hc : env.exit_code <;> simp [exit_events, hc, opened_handles]

theorem issued_ne_zero (env : Env) (hnz : ∀ h ∈ env.issued, h ≠ 0) :
    (∀ p, env.pipe_stdin = some p → p.1 ≠ 0 ∧ p.2 ≠ 0) ∧
    (∀ p, env.pipe_stdout = some p → p.1 ≠ 0 ∧ p.2 ≠ 0) ∧
    (∀ p, env.pipe_stderr = some p → p.1 ≠ 0 ∧ p.2 ≠ 0) ∧
    (∀ p, env.create_process = some p → p.1 ≠ 0 ∧ p.2 ≠ 0) := by
  refine ⟨?_, ?_, ?_, ?_⟩ <;>
  · intro p hp
    constructor <;>
    · apply hnz
      simp [Env.issued, hp]

/-- The trace of the part that follows a successful `CreateProcessA`. -/
theorem after_create_process_final (m : Machine) (so se es : Bool) (env : Env) :
    (after_create_process m so se es env).final =
      ⟨0, 0, 0, 0, 0, 0, 0, 0,
        m.trace ++ close_events m.pipe_proc_stdin_0 ++ close_events m.pipe_proc_stdout_1 ++
          close_events m.pipe_proc_stderr_1 ++
          drain_events so m.pipe_proc_stdout_0 env.stdout_reads env.stdout_realloc
            Event.store_standard_output ++
          drain_events se m.pipe_proc_stderr_0 env.stderr_reads env.stderr_realloc
            Event.store_standard_error ++
          [Event.WaitForSingleObject m.hProcess] ++
          exit_events es m.hProcess env ++
          close_events m.pipe_proc_stdin_1 ++ close_events m.pipe_proc_stdout_0 ++
          close_events m.pipe_proc_stderr_0 ++ close_events m.hProcess ++
          close_events m.hThread⟩ := by
  unfold after_create_process
  cases es
  · simp [close_and_invalidate_handle_eq, drain_eq, cleanup_eq, exit_events, close_events_zero]
  · cases hc : env.exit_code <;>
      simp [close_and_invalidate_handle_eq, drain_eq, cleanup_eq, Machine.emit, exit_events, hc,
        close_events_zero]

/-- The run in which every step up to process creation succeeds. -/
theorem spawn_created (wd : Option (List Nat)) (a : List Nat) (t : List (List Nat))
    (so se es : Bool) (env : Env) (p1 p2 p3 pi : HANDLE × HANDLE)
    (h1 : env.pipe_stdin = some p1) (h2 : env.pipe_stdout = some p2)
    (h3 : env.pipe_stderr = some p3) (h4 : env.set_stdin = true) (h5 : env.set_stdout = true)
    (h6 : env.set_stderr = true) (h7 : env.create_process = some pi) :
    workarounds_spawn_sync wd (a :: t) so se es env =
      after_create_process
        ⟨p1.1, p1.2, p2.1, p2.2, p3.1, p3.2, pi.1, pi.2,
          [Event.CreatePipe (some p1), Event.CreatePipe (some p2), Event.CreatePipe (some p3),
           Event.SetHandleInformation p1.2 true, Event.SetHandleInformation p2.1 true,
           Event.SetHandleInformation p3.1 true,
           Event.CreateProcessA (build_command_string (a :: t)).command_string wd (some pi)]⟩
        so se es env := by
  simp [workarounds_spawn_sync, h1, h2, h3, h4, h5, h6, h7, Machine.emit, Machine.init]

theorem handles_perm_and_null (wd : Option (List Nat)) (argv : List (List Nat))
    (so se es : Bool) (env : Env) (hnz : ∀ h ∈ env.issued, h ≠ 0) :
    (closed_handles (workarounds_spawn_sync wd argv so se es env).final.trace).Perm
      (opened_handles (workarounds_spawn_sync wd argv so se es env).final.trace) ∧
    (opened_handles (workarounds_spawn_sync wd argv so se es env).final.trace).Sublist env.issued ∧
    (workarounds_spawn_sync wd argv so se es env).final.all_null := by
  obtain ⟨n1, n2, n3, n4⟩ := issued_ne_zero env hnz
  cases argv with
  | nil => simp [workarounds_spawn_sync, Machine.init, closed_handles, opened_handles,
      Machine.all_null]
  | cons a t =>
    cases h1 : env.pipe_stdin with
    | none =>
      simp [workarounds_spawn_sync, h1, Machine.init, Machine.emit, closed_handles,
        opened_handles, Machine.all_null]
    | some p1 =>
      have q1 := n1 p1 h1
      cases h2 : env.pipe_stdout with
      | none =>
        simp [workarounds_spawn_sync, h1, h2, Machine.init, Machine.emit, closed_handles,
          opened_handles, Machine.all_null, fail_cleanup, cleanup_eq, close_events_zero,
          close_events_of_ne_zero, q1, closed_handles_append, opened_handles_append,
          Env.issued]
      | some p2 =>
        have q2 := n2 p2 h2
        cases h3 : env.pipe_stderr with
        | none =>
          simp [workarounds_spawn_sync, h1, h2, h3, Machine.init, Machine.emit, closed_handles,
          opened_handles, Machine.all_null, fail_cleanup, cleanup_eq, close_events_zero,
          close_events_of_ne_zero, q1, q2, closed_handles_append, opened_handles_append,
          Env.issued]
        | some p3 =>
          have q3 := n3 p3 h3
          cases h4 : env.set_stdin with
          | false =>
            simp [workarounds_spawn_sync, h1, h2, h3, h4, Machine.init, Machine.emit, closed_handles,
          opened_handles, Machine.all_null, fail_cleanup, cleanup_eq, close_events_zero,
          close_events_of_ne_zero, q1, q2, q3, closed_handles_append, opened_handles_append,
          Env.issued]
          | true =>
            cases h5 : env.set_stdout with
            | false =>
              simp [workarounds_spawn_sync, h1, h2, h3, h4, h5, Machine.init, Machine.emit, closed_handles,
          opened_handles, Machine.all_null, fail_cleanup, cleanup_eq, close_events_zero,
          close_events_of_ne_zero, q1, q2, q3, closed_handles_append, opened_handles_append,
          Env.issued]
            | true =>
              cases h6 : env.set_stderr with
              | false =>
                simp [workarounds_spawn_sync, h1, h2, h3, h4, h5, h6, Machine.init, Machine.emit, closed_handles,
          opened_handles, Machine.all_null, fail_cleanup, cleanup_eq, close_events_zero,
          close_events_of_ne_zero, q1, q2, q3, closed_handles_append, opened_handles_append,
          Env.issued]
              | true =>
                cases h7 : env.create_process with
                | none =>
                  simp [workarounds_spawn_sync, h1, h2, h3, h4, h5, h6, h7, Machine.init, Machine.emit, closed_handles,
          opened_handles, Machine.all_null, fail_cleanup, cleanup_eq, close_events_zero,
          close_events_of_ne_zero, q1, q2, q3, closed_handles_append, opened_handles_append,
          Env.issued]
                | some pi =>
                  have q4 := n4 pi h7
                  rw [spawn_created wd a t so se es env p1 p2 p3 pi h1 h2 h3 h4 h5 h6 h7,
                    after_create_process_final]
                  simp [closed_handles_append, opened_handles_append,
                    closed_handles_drain_std_out, closed_handles_drain_std_err,
                    opened_handles_drain_std_out, opened_handles_drain_std_err,
                    close_events_of_ne_zero _ q1.1, close_events_of_ne_zero _ q1.2,
                    close_events_of_ne_zero _ q2.1, close_events_of_ne_zero _ q2.2,
                    close_events_of_ne_zero _ q3.1, close_events_of_ne_zero _ q3.2,
                    close_events_of_ne_zero _ q4.1, close_events_of_ne_zero _ q4.2,
                    closed_handles_exit_events, opened_handles_exit_events,
                    closed_handles, opened_handles, Env.issued, h1, h2, h3, h7,
                    Machine.all_null]
                  rw [List.perm_iff_count]
                  intro x
                  simp only [List.count_cons, List.count_nil]
                  omega

/-- C1: with every operating-system call an oracle, `workarounds_spawn_sync` called
    with a non-empty `argv` returns `true` if and only if the three pipe creations, the
    three inheritance-flag changes and the process creation succeeded; what the reads,
    the reallocations and the exit-code query answer does not enter the result. -/
theorem spawn_returns_true_iff (wd : Option (List Nat)) (argv : List (List Nat))
    (so se es : Bool) (env : Env) (hne : argv ≠ []) :
    (workarounds_spawn_sync wd argv so se es env).retval = true ↔
      (env.pipe_stdin.isSome = true ∧ env.pipe_stdout.isSome = true ∧
       env.pipe_stderr.isSome = true ∧ env.set_stdin = true ∧ env.set_stdout = true ∧
       env.set_stderr = true ∧ env.create_process.isSome = true) := by
  cases argv with
  | nil => exact absurd rfl hne
  | cons a t => exact retval_iff wd a t so se es env

/-- The witness of C1: every step succeeds except the exit-code query and the
    reallocations of the stdout drain, and the call returns `true`. -/
theorem spawn_returns_true_iff_witness :
    [[112]] ≠ ([] : List (List Nat)) ∧
    ((workarounds_spawn_sync none [[112]] true true true
        { env_hello with exit_code := none, stdout_realloc := fun _ => false }).retval = true ↔
      (env_hello.pipe_stdin.isSome = true ∧ env_hello.pipe_stdout.isSome = true ∧
       env_hello.pipe_stderr.isSome = true ∧ env_hello.set_stdin = true ∧
       env_hello.set_stdout = true ∧ env_hello.set_stderr = true ∧
       env_hello.create_process.isSome = true)) :=
  ⟨by decide,
   spawn_returns_true_iff none [[112]] true true true
     { env_hello with exit_code := none, stdout_realloc := fun _ => false } (by decide)⟩

/-- C3: on every path of `workarounds_spawn_sync`, when the operating system hands
    out non-NULL, pairwise distinct handles, the handles passed to `CloseHandle` are a
    rearrangement of the handles opened: every handle opened is closed exactly once
    before the return, nothing else is closed, no handle is closed twice, and the eight
    handle variables are all NULL at the return. -/
theorem every_opened_handle_closed_once (wd : Option (List Nat)) (argv : List (List Nat))
    (so se es : Bool) (env : Env) (hnz : ∀ h ∈ env.issued, h ≠ 0) (hnd : env.issued.Nodup) :
    (closed_handles (workarounds_spawn_sync wd argv so se es env).final.trace).Perm
      (opened_handles (workarounds_spawn_sync wd argv so se es env).final.trace) ∧
    (∀ h ∈ opened_handles (workarounds_spawn_sync wd argv so se es env).final.trace,
      (closed_handles (workarounds_spawn_sync wd argv so se es env).final.trace).count h = 1) ∧
    (∀ h, h ∉ opened_handles (workarounds_spawn_sync wd argv so se es env).final.trace →
      (closed_handles (workarounds_spawn_sync wd argv so se es env).final.trace).count h = 0) ∧
    (closed_handles (workarounds_spawn_sync wd argv so se es env).final.trace).Nodup ∧
    (workarounds_spawn_sync wd argv so se es env).final.all_null := by
  obtain ⟨hperm, hsub, hnull⟩ := handles_perm_and_null wd argv so se es env hnz
  have hnd_open := hnd.sublist hsub
  have hnd_closed := (hperm.nodup_iff).mpr hnd_open
  refine ⟨hperm, ?_, ?_, hnd_closed, hnull⟩
  · intro h hh
    exact List.count_eq_one_of_mem hnd_closed ((hperm.mem_iff).mpr hh)
  · intro h hh
    exact List.count_eq_zero_of_not_mem (fun hc => hh ((hperm.mem_iff).mp hc))

/-- The witness of C3: the successful run of `env_hello`. -/
theorem every_opened_handle_closed_once_witness :
    (∀ h ∈ env_hello.issued, h ≠ 0) ∧ env_hello.issued.Nodup ∧
    closed_handles (workarounds_spawn_sync none [[112]] true true true env_hello).final.trace
      = [11, 22, 32, 12, 21, 31, 41, 42] ∧
    (closed_handles (workarounds_spawn_sync none [[112]] true true true env_hello).final.trace).Perm
      (opened_handles (workarounds_spawn_sync none [[112]] true true true env_hello).final.trace) ∧
    (workarounds_spawn_sync none [[112]] true true true env_hello).final.all_null :=
  ⟨by decide, by decide, by decide,
   (every_opened_handle_closed_once none [[112]] true true true env_hello
      (by decide) (by decide)).1,
   (every_opened_handle_closed_once none [[112]] true true true env_hello
      (by decide) (by decide)).2.2.2.2⟩

theorem close_events_plumbing (h : HANDLE) :
    (close_events h).all Event.is_plumbing = true := by
  by_cases hh : h = 0 <;> simp [close_events, hh, Event.is_plumbing]

/-- A run in which a step up to process creation fails returns `false`, stores
    nothing for the caller, ends with all handle variables NULL, and consists of
    set-up and tear-down events only. -/
theorem failed_run (wd : Option (List Nat)) (argv : List (List Nat)) (so se es : Bool)
    (env : Env) (hfail : ¬ env.process_created) :
    ∃ tr, tr.all Event.is_plumbing = true ∧
      workarounds_spawn_sync wd argv so se es env =
        ⟨false, OutSlot.untouched, OutSlot.untouched, OutSlot.untouched,
          ⟨0, 0, 0, 0, 0, 0, 0, 0, tr⟩⟩ := by
  cases argv with
  | nil => exact ⟨[], rfl, rfl⟩
  | cons a t =>
    cases h1 : env.pipe_stdin with
    | none =>
      exact ⟨[Event.CreatePipe none], rfl,
        by simp [workarounds_spawn_sync, h1, Machine.init, Machine.emit]⟩
    | some p1 =>
      cases h2 : env.pipe_stdout with
      | none =>
        refine ⟨_, ?_, by simp [workarounds_spawn_sync, h1, h2, Machine.init, Machine.emit,
          fail_cleanup, cleanup_eq, close_events_zero]; rfl⟩
        simp [close_events_plumbing, Event.is_plumbing]
      | some p2 =>
        cases h3 : env.pipe_stderr with
        | none =>
          refine ⟨_, ?_, by simp [workarounds_spawn_sync, h1, h2, h3, Machine.init, Machine.emit,
            fail_cleanup, cleanup_eq, close_events_zero]; rfl⟩
          simp [close_events_plumbing, Event.is_plumbing]
        | some p3 =>
          cases h4 : env.set_stdin with
          | false =>
            refine ⟨_, ?_, by simp [workarounds_spawn_sync, h1, h2, h3, h4, Machine.init,
              Machine.emit, fail_cleanup, cleanup_eq, close_events_zero]; rfl⟩
            simp [close_events_plumbing, Event.is_plumbing]
          | true =>
            cases h5 : env.set_stdout with
            | false =>
              refine ⟨_, ?_, by simp [workarounds_spawn_sync, h1, h2, h3, h4, h5, Machine.init,
                Machine.emit, fail_cleanup, cleanup_eq, close_events_zero]; rfl⟩
              simp [close_events_plumbing, Event.is_plumbing]
            | true =>
              cases h6 : env.set_stderr with
              | false =>
                refine ⟨_, ?_, by simp [workarounds_spawn_sync, h1, h2, h3, h4, h5, h6,
                  Machine.init, Machine.emit, fail_cleanup, cleanup_eq, close_events_zero]; rfl⟩
                simp [close_events_plumbing, Event.is_plumbing]
              | true =>
                cases h7 : env.create_process with
                | none =>
                  refine ⟨_, ?_, by simp [workarounds_spawn_sync, h1, h2, h3, h4, h5, h6, h7,
                    Machine.init, Machine.emit, fail_cleanup, cleanup_eq, close_events_zero]; rfl⟩
                  simp [close_events_plumbing, Event.is_plumbing]
                | some pi =>
                  exact absurd (by simp [Env.process_created, h1, h2, h3, h4, h5, h6, h7]) hfail

theorem plumbing_is_quiet (e : Event) (h : e.is_plumbing = true) :
    e.is_store = false ∧ e.is_read = false ∧ e.is_wait = false ∧ e.is_late_failure = false := by
  cases e <;> simp_all [Event.is_plumbing, Event.is_store, Event.is_read, Event.is_wait,
    Event.is_late_failure]

/-- C9: when process creation fails, `workarounds_spawn_sync` returns `false`, makes
    no `ReadFile` call and stores nothing through `standard_output`, `standard_error`
    or `exit_status`: each of the caller's three locations holds after the call the
    value it held before. -/
theorem create_process_failure_frame (wd : Option (List Nat)) (argv : List (List Nat))
    (so se es : Bool) (env : Env) (hfail : env.create_process = none) :
    (workarounds_spawn_sync wd argv so se es env).retval = false ∧
    (∀ e ∈ (workarounds_spawn_sync wd argv so se es env).final.trace,
      e.is_store = false ∧ e.is_read = false) ∧
    (∀ v, (workarounds_spawn_sync wd argv so se es env).standard_output.after v = v) ∧
    (∀ v, (workarounds_spawn_sync wd argv so se es env).standard_error.after v = v) ∧
    (∀ v, (workarounds_spawn_sync wd argv so se es env).exit_status.after v = v) := by
  have hnot : ¬ env.process_created := by
    intro h
    have h7 := h.2.2.2.2.2.2
    rw [hfail] at h7
    exact absurd h7 (by decide)
  obtain ⟨tr, htr, heq⟩ := failed_run wd argv so se es env hnot
  rw [heq]
  refine ⟨rfl, ?_, fun _ => rfl, fun _ => rfl, fun _ => rfl⟩
  intro e he
  have hp := List.all_eq_true.mp htr e he
  exact ⟨(plumbing_is_quiet e hp).1, (plumbing_is_quiet e hp).2.1⟩

/-- The witness of C9: `env_hello` with a failing `CreateProcessA`. -/
theorem create_process_failure_frame_witness :
    env_no_process.create_process = none ∧
    (workarounds_spawn_sync none [[112]] true true true env_no_process).retval = false ∧
    (∀ e ∈ (workarounds_spawn_sync none [[112]] true true true env_no_process).final.trace,
      e.is_store = false ∧ e.is_read = false) ∧
    (∀ v, (workarounds_spawn_sync none [[112]] true true true
        env_no_process).standard_output.after v = v) :=
  ⟨rfl,
   (create_process_failure_frame none [[112]] true true true env_no_process rfl).1,
   (create_process_failure_frame none [[112]] true true true env_no_process rfl).2.1,
   (create_process_failure_frame none [[112]] true true true env_no_process rfl).2.2.1⟩

theorem after_create_process_slots (m : Machine) (so se es : Bool) (env : Env) :
    (after_create_process m so se es env).standard_output =
      (if so then OutSlot.written (read_file_into_string env.stdout_reads env.stdout_realloc).value
       else OutSlot.untouched) ∧
    (after_create_process m so se es env).standard_error =
      (if se then OutSlot.written (read_file_into_string env.stderr_reads env.stderr_realloc).value
       else OutSlot.untouched) ∧
    (after_create_process m so se es env).exit_status =
      (if es then
        match env.exit_code with
        | none => OutSlot.untouched
        | some code => OutSlot.written (int_of_DWORD code)
       else OutSlot.untouched) := by
  unfold after_create_process
  cases so <;> cases se <;> cases es <;> simp [drain] <;> cases hc : env.exit_code <;> simp

/-- C7, as the code has it: in a run in which every operating-system call and every
    allocation succeeds, the caller supplies the three output locations, the stdout pipe
    delivers `O` and the stderr pipe delivers `E` as finite sequences of reads none
    larger than requested, each followed by a failing read, and the child exits with the
    `DWORD` code `c`: the call returns `true`, `*standard_output` is `O` followed by
    one NUL, `*standard_error` is `E` followed by one NUL, and `*exit_status` is `c`
    converted to `int`, which is `c` when `c < 2^31` and `c - 2^32` when `2^31 ≤ c`.
    Both drains terminate: the function is total. -/
theorem successful_run_outputs (wd : Option (List Nat)) (argv : List (List Nat)) (env : Env)
    (c : Nat) (hne : argv ≠ []) (hcreated : env.process_created)
    (hso : ∀ k, env.stdout_realloc k = true) (hse : ∀ k, env.stderr_realloc k = true)
    (hro : reads_within_request env.stdout_reads 1024 0 = true)
    (hre : reads_within_request env.stderr_reads 1024 0 = true)
    (hexit : env.exit_code = some c) :
    (workarounds_spawn_sync wd argv true true true env).retval = true ∧
    (workarounds_spawn_sync wd argv true true true env).standard_output
      = OutSlot.written (some (env.stdout_reads.flatten ++ [0])) ∧
    (workarounds_spawn_sync wd argv true true true env).standard_error
      = OutSlot.written (some (env.stderr_reads.flatten ++ [0])) ∧
    (workarounds_spawn_sync wd argv true true true env).exit_status
      = OutSlot.written (int_of_DWORD c) ∧
    (c < 2 ^ 31 → (workarounds_spawn_sync wd argv true true true env).exit_status
      = OutSlot.written (c : Int)) ∧
    (2 ^ 31 ≤ c → (workarounds_spawn_sync wd argv true true true env).exit_status
      = OutSlot.written ((c : Int) - 2 ^ 32)) := by
  cases argv with
  | nil => exact absurd rfl hne
  | cons a t =>
    obtain ⟨h1, h2, h3, h4, h5, h6, h7⟩ := hcreated
    obtain ⟨p1, h1⟩ := Option.isSome_iff_exists.mp h1
    obtain ⟨p2, h2⟩ := Option.isSome_iff_exists.mp h2
    obtain ⟨p3, h3⟩ := Option.isSome_iff_exists.mp h3
    obtain ⟨pi, h7⟩ := Option.isSome_iff_exists.mp h7
    rw [spawn_created wd a t true true true env p1 p2 p3 pi h1 h2 h3 h4 h5 h6 h7]
    obtain ⟨s1, s2, s3⟩ := after_create_process_slots
      ⟨p1.1, p1.2, p2.1, p2.2, p3.1, p3.2, pi.1, pi.2,
        [Event.CreatePipe (some p1), Event.CreatePipe (some p2), Event.CreatePipe (some p3),
         Event.SetHandleInformation p1.2 true, Event.SetHandleInformation p2.1 true,
         Event.SetHandleInformation p3.1 true,
         Event.CreateProcessA (build_command_string (a :: t)).command_string wd (some pi)]⟩
      true true true env
    rw [s1, s2, s3, after_create_process_retval,
      read_file_into_string_value _ _ hso hro, read_file_into_string_value _ _ hse hre, hexit]
    refine ⟨rfl, rfl, rfl, rfl, ?_, ?_⟩
    · intro hc
      simp only [int_of_DWORD, if_pos hc]
      rfl
    · intro hc
      have hn : ¬ c < 2 ^ 31 := Nat.not_lt.mpr hc
      simp only [int_of_DWORD, if_neg hn]
      rfl

/-- The witness of C7: the child writes `hello` and a newline to stdout (delivered
    in two reads), nothing to stderr, and exits with code 0. -/
theorem successful_run_outputs_witness :
    (workarounds_spawn_sync none [[112]] true true true env_hello).retval = true ∧
    (workarounds_spawn_sync none [[112]] true true true env_hello).standard_output
      = OutSlot.written (some [104, 101, 108, 108, 111, 10, 0]) ∧
    (workarounds_spawn_sync none [[112]] true true true env_hello).standard_error
      = OutSlot.written (some [0]) ∧
    (workarounds_spawn_sync none [[112]] true true true env_hello).exit_status
      = OutSlot.written 0 := by
  have h := successful_run_outputs none [[112]] env_hello 0 (by decide)
    (by simp [Env.process_created, env_hello]) (fun _ => rfl) (fun _ => rfl)
    (by decide) (by decide) rfl
  exact ⟨h.1, h.2.1, h.2.2.1, h.2.2.2.2.1 (by decide)⟩

/-- C7, the claim as stated fails: in the run `env_high_exit_code`, where every
    operating-system call and allocation succeeds, the reads stay within the requests
    and the child exits with code `4294967295`, the call returns `true` and the outputs
    are captured, but line 210 converts the `DWORD` to `int`: `*exit_status` is `-1`,
    not `4294967295`. -/
theorem high_exit_code_stored_negative :
    env_high_exit_code.process_created ∧
    reads_within_request env_high_exit_code.stdout_reads 1024 0 = true ∧
    reads_within_request env_high_exit_code.stderr_reads 1024 0 = true ∧
    env_high_exit_code.exit_code = some 4294967295 ∧
    (workarounds_spawn_sync none [[112]] true true true env_high_exit_code).retval = true ∧
    (workarounds_spawn_sync none [[112]] true true true env_high_exit_code).standard_output
      = OutSlot.written (some [104, 101, 108, 108, 111, 10, 0]) ∧
    (workarounds_spawn_sync none [[112]] true true true env_high_exit_code).exit_status
      = OutSlot.written (-1) ∧
    (workarounds_spawn_sync none [[112]] true true true env_high_exit_code).exit_status
      ≠ OutSlot.written (4294967295 : Int) := by
  refine ⟨by simp [Env.process_created, env_high_exit_code, env_hello], by decide, by decide,
    rfl, by decide, by decide, by decide, by decide⟩

/-- The trace of a run in which every step up to process creation succeeds. -/
theorem created_run_trace (wd : Option (List Nat)) (a : List Nat) (t : List (List Nat))
    (so se es : Bool) (env : Env) (p1 p2 p3 pi : HANDLE × HANDLE)
    (h1 : env.pipe_stdin = some p1) (h2 : env.pipe_stdout = some p2)
    (h3 : env.pipe_stderr = some p3) (h4 : env.set_stdin = true) (h5 : env.set_stdout = true)
    (h6 : env.set_stderr = true) (h7 : env.create_process = some pi) :
    (workarounds_spawn_sync wd (a :: t) so se es env).final.trace =
      [Event.CreatePipe (some p1), Event.CreatePipe (some p2), Event.CreatePipe (some p3),
       Event.SetHandleInformation p1.2 true, Event.SetHandleInformation p2.1 true,
       Event.SetHandleInformation p3.1 true,
       Event.CreateProcessA (build_command_string (a :: t)).command_string wd (some pi)] ++
      (close_events p1.1 ++ close_events p2.2 ++ close_events p3.2) ++
      drain_events so p2.1 env.stdout_reads env.stdout_realloc Event.store_standard_output ++
      (drain_events se p3.1 env.stderr_reads env.stderr_realloc Event.store_standard_error ++
       ([Event.WaitForSingleObject pi.1] ++
        (exit_events es pi.1 env ++
         (close_events p1.2 ++ close_events p2.1 ++ close_events p3.1 ++ close_events pi.1 ++
          close_events pi.2)))) := by
  rw [spawn_created wd a t so se es env p1 p2 p3 pi h1 h2 h3 h4 h5 h6 h7,
    after_create_process_final]
  simp

theorem close_events_any (p : Event → Bool) (hp : ∀ h, p (Event.CloseHandle h) = false)
    (h : HANDLE) : (close_events h).any p = false := by
  by_cases hh : h = 0 <;> simp [close_events, hh, hp]

theorem drain_events_any (p : Event → Bool) (store : Option (List Nat) → Event)
    (hr : ∀ h c, p (Event.ReadFile h c) = false) (hs : ∀ v, p (store v) = false)
    (requested : Bool) (h : HANDLE) (reads : List (List Nat)) (f : Nat → Bool) :
    (drain_events requested h reads f store).any p = false := by
  cases requested
  · rfl
  · simp [drain_events, hr, hs]

theorem exit_events_any_setup_failure (es : Bool) (h : HANDLE) (env : Env) :
    (exit_events es h env).any Event.is_setup_failure = false := by
  cases es
  · rfl
  · cases hc : env.exit_code <;> simp [exit_events, hc, Event.is_setup_failure]

/-- C2, as the code has it: a run in which a pipe creation, a change of an
    inheritance flag or the process creation fails returns `false`; a run in which the
    exit-code query fails, or in which a drain returns NULL because a reallocation
    failed, returns `true`, such a failure being possible only once the process has
    been created. -/
theorem setup_failure_returns_false (wd : Option (List Nat)) (argv : List (List Nat))
    (so se es : Bool) (env : Env) :
    ((workarounds_spawn_sync wd argv so se es env).final.trace.any Event.is_setup_failure = true →
      (workarounds_spawn_sync wd argv so se es env).retval = false) ∧
    ((workarounds_spawn_sync wd argv so se es env).final.trace.any Event.is_late_failure = true →
      (workarounds_spawn_sync wd argv so se es env).retval = true) := by
  by_cases hc : env.process_created
  · cases argv with
    | nil => simp [workarounds_spawn_sync, Machine.init]
    | cons a t =>
      have hret := (retval_iff wd a t so se es env).mpr hc
      obtain ⟨h1, h2, h3, h4, h5, h6, h7⟩ := hc
      obtain ⟨p1, h1⟩ := Option.isSome_iff_exists.mp h1
      obtain ⟨p2, h2⟩ := Option.isSome_iff_exists.mp h2
      obtain ⟨p3, h3⟩ := Option.isSome_iff_exists.mp h3
      obtain ⟨pi, h7⟩ := Option.isSome_iff_exists.mp h7
      refine ⟨?_, fun _ => hret⟩
      intro hany
      rw [created_run_trace wd a t so se es env p1 p2 p3 pi h1 h2 h3 h4 h5 h6 h7] at hany
      have hclose : ∀ h, (close_events h).any Event.is_setup_failure = false :=
        close_events_any _ (fun _ => rfl)
      have hd1 := drain_events_any Event.is_setup_failure Event.store_standard_output
        (fun _ _ => rfl) (fun _ => rfl) so p2.1 env.stdout_reads env.stdout_realloc
      have hd2 := drain_events_any Event.is_setup_failure Event.store_standard_error
        (fun _ _ => rfl) (fun _ => rfl) se p3.1 env.stderr_reads env.stderr_realloc
      have hex := exit_events_any_setup_failure es pi.1 env
      simp only [List.any_append, hclose, hd1, hd2, hex, Bool.or_false] at hany
      simp [Event.is_setup_failure] at hany
  · obtain ⟨tr, htr, heq⟩ := failed_run wd argv so se es env hc
    rw [heq]
    refine ⟨fun _ => rfl, ?_⟩
    intro hany
    obtain ⟨e, he, hl⟩ := List.any_eq_true.mp hany
    have hq := (plumbing_is_quiet e (List.all_eq_true.mp htr e he)).2.2.2
    rw [hq] at hl
    exact absurd hl (by decide)

/-- C2, the claim as stated fails: in the run where everything succeeds but
    `GetExitCodeProcess`, with `exit_status` requested, the call returns `true`; and in
    the run where the reallocations of the stdout drain fail, `*standard_output` is set
    to NULL and the call returns `true`. -/
theorem late_failure_returns_true :
    (workarounds_spawn_sync none [[112]] true true true env_exit_code_fails).retval = true ∧
    Event.GetExitCodeProcess 41 none ∈
      (workarounds_spawn_sync none [[112]] true true true env_exit_code_fails).final.trace ∧
    (workarounds_spawn_sync none [[112]] true true true env_realloc_fails).retval = true ∧
    (workarounds_spawn_sync none [[112]] true true true env_realloc_fails).standard_output
      = OutSlot.written none := by
  decide

/-- The witness of C2: a failing `CreateProcessA` gives `false`, a failing
    `GetExitCodeProcess` gives `true`. -/
theorem setup_failure_returns_false_witness :
    (workarounds_spawn_sync none [[112]] true true true env_no_process).final.trace.any
      Event.is_setup_failure = true ∧
    (workarounds_spawn_sync none [[112]] true true true env_no_process).retval = false ∧
    (workarounds_spawn_sync none [[112]] true true true env_exit_code_fails).final.trace.any
      Event.is_late_failure = true ∧
    (workarounds_spawn_sync none [[112]] true true true env_exit_code_fails).retval = true :=
  ⟨by decide,
   (setup_failure_returns_false none [[112]] true true true env_no_process).1 (by decide),
   by decide,
   (setup_failure_returns_false none [[112]] true true true env_exit_code_fails).2 (by decide)⟩

theorem read_loop_has_failing_call (f : Nat → Bool) (hf : ∀ j, f j = true)
    (reads : List (List Nat)) :
    ∀ (a l k : Nat) (buf : List Nat),
      ∃ c ∈ (read_loop f reads a l k buf).calls, c.amt_read_once = none := by
  induction reads with
  | nil =>
    intro a l k buf
    simp [read_loop, hf]
  | cons chunk rest ih =>
    intro a l k buf
    simp only [read_loop, hf, if_true]
    split
    · obtain ⟨c, hc, hn⟩ := ih (a * 2) (l + (chunk.take ((a - l) % 2 ^ 32)).length) (k + 1)
        (buf ++ chunk.take ((a - l) % 2 ^ 32))
      exact ⟨c, List.mem_cons_of_mem _ hc, hn⟩
    · obtain ⟨c, hc, hn⟩ := ih a (l + (chunk.take ((a - l) % 2 ^ 32)).length) k
        (buf ++ chunk.take ((a - l) % 2 ^ 32))
      exact ⟨c, List.mem_cons_of_mem _ hc, hn⟩

/-- A failing read on `h` among the reads on `h`, with a wait after them. -/
theorem drained_before_wait_reads (h : HANDLE) (cs : List ReadCall) (t : List Event)
    (hfail : ∃ c ∈ cs, c.amt_read_once = none) (hwait : t.any Event.is_wait = true) :
    drained_before_wait h (cs.map (Event.ReadFile h) ++ t) = true := by
  induction cs with
  | nil =>
    obtain ⟨c, hc, _⟩ := hfail
    simp at hc
  | cons c cs ih =>
    by_cases hn : c.amt_read_once = none
    · simp [drained_before_wait, hn, hwait]
    · have hrest : ∃ d ∈ cs, d.amt_read_once = none := by
        obtain ⟨d, hd, hdn⟩ := hfail
        rcases List.mem_cons.mp hd with hd | hd
        · exact absurd (hd ▸ hdn) hn
        · exact ⟨d, hd, hdn⟩
      simp [drained_before_wait, hn, ih hrest]

/-- Events that are not waits, placed in front, do not undo a drain that a wait follows. -/
theorem drained_before_wait_append (h : HANDLE) (l t : List Event)
    (hl : l.any Event.is_wait = false) (hwait : t.any Event.is_wait = true)
    (ht : drained_before_wait h t = true) :
    drained_before_wait h (l ++ t) = true := by
  induction l with
  | nil => exact ht
  | cons e l ih =>
    simp only [List.any_cons, Bool.or_eq_false_iff] at hl
    have ih2 := ih hl.2
    cases e with
    | WaitForSingleObject x => simp [Event.is_wait] at hl
    | ReadFile h1 c =>
      by_cases hm : h1 = h ∧ c.amt_read_once = none
      · simp [drained_before_wait, hm, hwait]
      · simp only [List.cons_append, drained_before_wait, if_neg hm]
        exact ih2
    | _ => simpa [drained_before_wait] using ih2

theorem is_read_of_close_events (h x : HANDLE) :
    (close_events x).any (Event.is_read_of h) = false :=
  close_events_any _ (fun _ => rfl) x

theorem exit_events_any (p : Event → Bool) (hg : ∀ h r, p (Event.GetExitCodeProcess h r) = false)
    (hs : ∀ v, p (Event.store_exit_status v) = false) (es : Bool) (h : HANDLE) (env : Env) :
    (exit_events es h env).any p = false := by
  cases es
  · rfl
  · cases hc : env.exit_code <;> simp [exit_events, hc, hg, hs]

theorem reads_any_is_read_of (h x : HANDLE) (hne : x ≠ h) (cs : List ReadCall) :
    (cs.map (Event.ReadFile x)).any (Event.is_read_of h) = false := by
  induction cs with
  | nil => rfl
  | cons c cs ih => simp [Event.is_read_of, hne, ih]

theorem drain_events_any_is_read_of (h x : HANDLE) (hne : x ≠ h)
    (store : Option (List Nat) → Event) (hs : ∀ v, (store v).is_read_of h = false)
    (requested : Bool) (reads : List (List Nat)) (f : Nat → Bool) :
    (drain_events requested x reads f store).any (Event.is_read_of h) = false := by
  cases requested
  · rfl
  · simp only [drain_events, if_true, List.any_append, reads_any_is_read_of h x hne,
      List.any_cons, hs, List.any_nil, Bool.or_false]

/-- C8, as the code has it: after a successful process creation, a stream whose
    output pointer is non-NULL is read until `ReadFile` fails, before the wait for the
    child, provided the reallocations of its drain succeed; a stream whose output
    pointer is NULL is not read at all.  The wait always takes place. -/
theorem requested_streams_drained_before_wait (wd : Option (List Nat))
    (argv : List (List Nat)) (so se es : Bool) (env : Env) (p2 p3 : HANDLE × HANDLE)
    (hne : argv ≠ []) (hcreated : env.process_created)
    (h2 : env.pipe_stdout = some p2) (h3 : env.pipe_stderr = some p3) (hdist : p2.1 ≠ p3.1) :
    (so = true → (∀ k, env.stdout_realloc k = true) →
      drained_before_wait p2.1 (workarounds_spawn_sync wd argv so se es env).final.trace = true) ∧
    (se = true → (∀ k, env.stderr_realloc k = true) →
      drained_before_wait p3.1 (workarounds_spawn_sync wd argv so se es env).final.trace = true) ∧
    (so = false →
      (workarounds_spawn_sync wd argv so se es env).final.trace.any (Event.is_read_of p2.1)
        = false) ∧
    (se = false →
      (workarounds_spawn_sync wd argv so se es env).final.trace.any (Event.is_read_of p3.1)
        = false) ∧
    (workarounds_spawn_sync wd argv so se es env).final.trace.any Event.is_wait = true := by
  cases argv with
  | nil => exact absurd rfl hne
  | cons a t =>
    obtain ⟨h1, -, -, h4, h5, h6, h7⟩ := hcreated
    obtain ⟨p1, h1⟩ := Option.isSome_iff_exists.mp h1
    obtain ⟨pi, h7⟩ := Option.isSome_iff_exists.mp h7
    rw [created_run_trace wd a t so se es env p1 p2 p3 pi h1 h2 h3 h4 h5 h6 h7]
    have hcw : ∀ h, (close_events h).any Event.is_wait = false :=
      close_events_any _ (fun _ => rfl)
    have hdw1 := drain_events_any Event.is_wait Event.store_standard_output
      (fun _ _ => rfl) (fun _ => rfl) so p2.1 env.stdout_reads env.stdout_realloc
    have hdw2 := drain_events_any Event.is_wait Event.store_standard_error
      (fun _ _ => rfl) (fun _ => rfl) se p3.1 env.stderr_reads env.stderr_realloc
    refine ⟨?_, ?_, ?_, ?_, ?_⟩
    · intro hso hre
      subst hso
      rw [List.append_assoc]
      apply drained_before_wait_append
      · simp [List.any_append, hcw, Event.is_wait]
      · simp [List.any_append, Event.is_wait]
      · simp only [drain_events, if_true, List.append_assoc]
        exact drained_before_wait_reads _ _ _
          (read_loop_has_failing_call _ hre _ _ _ _ _) (by simp [List.any_append, Event.is_wait])
    · intro hse hre
      subst hse
      apply drained_before_wait_append
      · simp [List.any_append, hcw, hdw1, Event.is_wait]
      · simp [List.any_append, Event.is_wait]
      · simp only [drain_events, if_true, List.append_assoc]
        exact drained_before_wait_reads _ _ _
          (read_loop_has_failing_call _ hre _ _ _ _ _) (by simp [List.any_append, Event.is_wait])
    · intro hso
      subst hso
      have hd := drain_events_any_is_read_of p2.1 p3.1 (Ne.symm hdist)
        Event.store_standard_error (fun _ => rfl) se env.stderr_reads env.stderr_realloc
      have hx := exit_events_any (Event.is_read_of p2.1) (fun _ _ => rfl) (fun _ => rfl)
        es pi.1 env
      have hoff : ∀ (h : HANDLE) (r : List (List Nat)) (f : Nat → Bool)
          (st : Option (List Nat) → Event), drain_events false h r f st = [] := fun _ _ _ _ => rfl
      simp [List.any_append, is_read_of_close_events, hd, hx, Event.is_read_of, hoff]
    · intro hse
      subst hse
      have hd := drain_events_any_is_read_of p3.1 p2.1 hdist
        Event.store_standard_output (fun _ => rfl) so env.stdout_reads env.stdout_realloc
      have hx := exit_events_any (Event.is_read_of p3.1) (fun _ _ => rfl) (fun _ => rfl)
        es pi.1 env
      have hoff : ∀ (h : HANDLE) (r : List (List Nat)) (f : Nat → Bool)
          (st : Option (List Nat) → Event), drain_events false h r f st = [] := fun _ _ _ _ => rfl
      simp [List.any_append, is_read_of_close_events, hd, hx, Event.is_read_of, hoff]
    · simp [List.any_append, Event.is_wait]

/-- A first read of 768 bytes followed by a failing reallocation. -/
theorem read_file_into_string_growth_fails (chunk : List Nat) (rest : List (List Nat))
    (f : Nat → Bool) (hlen : chunk.length = 768) (hf : f 0 = false) :
    read_file_into_string (chunk :: rest) f = ⟨none, [⟨1024, 0, 1024, some 768⟩]⟩ := by
  have htake : chunk.take 1024 = chunk := List.take_of_length_le (by omega)
  have hmod : (1024 - 0) % 2 ^ 32 = 1024 := by decide
  simp only [read_file_into_string, read_loop, hmod, htake, hf, hlen]
  rw [if_pos (by decide), if_neg (by decide)]

/-- C8, the claim as stated fails: in the successful run of `env_hello` with
    `standard_output = NULL`, the process is created and waited for, but no `ReadFile`
    is ever made on the read end of the stdout pipe (handle 21), so that pipe is not
    read to its end before the wait.  And in the run `env_growth_fails`, with
    `standard_output` supplied, the drain of stdout stops at the failed reallocation
    after one read: `*standard_output` is NULL and no read reaches the end of the stream. -/
theorem unrequested_stream_not_drained :
    (workarounds_spawn_sync none [[112]] false true true env_hello).retval = true ∧
    Event.WaitForSingleObject 41 ∈
      (workarounds_spawn_sync none [[112]] false true true env_hello).final.trace ∧
    (workarounds_spawn_sync none [[112]] false true true env_hello).final.trace.any
      (Event.is_read_of 21) = false ∧
    drained_before_wait 21
      (workarounds_spawn_sync none [[112]] false true true env_hello).final.trace = false ∧
    (workarounds_spawn_sync none [[112]] true true true env_growth_fails).standard_output
      = OutSlot.written none ∧
    drained_before_wait 21
      (workarounds_spawn_sync none [[112]] true true true env_growth_fails).final.trace
        = false := by
  have hr : read_file_into_string env_growth_fails.stdout_reads
      env_growth_fails.stdout_realloc = ⟨none, [⟨1024, 0, 1024, some 768⟩]⟩ :=
    read_file_into_string_growth_fails _ _ _ (List.length_replicate _ _) rfl
  refine ⟨by decide, by decide, by decide, by decide, ?_, ?_⟩
  · have hs := (after_create_process_slots
      ⟨11, 12, 21, 22, 31, 32, 41, 42,
        [Event.CreatePipe (some (11, 12)), Event.CreatePipe (some (21, 22)),
         Event.CreatePipe (some (31, 32)),
         Event.SetHandleInformation 12 true, Event.SetHandleInformation 21 true,
         Event.SetHandleInformation 31 true,
         Event.CreateProcessA (build_command_string [[112]]).command_string none
           (some (41, 42))]⟩ true true true env_growth_fails).1
    rw [spawn_created none [112] [] true true true env_growth_fails (11, 12) (21, 22) (31, 32)
      (41, 42) rfl rfl rfl rfl rfl rfl rfl, hs, hr]
    rfl
  · have hv : read_file_into_string env_growth_fails.stderr_reads
        env_growth_fails.stderr_realloc = ⟨some [0], [⟨1024, 0, 1024, none⟩]⟩ := by
      decide
    rw [created_run_trace none [112] [] true true true env_growth_fails (11, 12) (21, 22)
      (31, 32) (41, 42) rfl rfl rfl rfl rfl rfl rfl]
    simp only [drain_events, hr, hv, if_true]
    decide

/-- The witness of C8: in the run of `env_hello` that requests stderr only, the
    stderr pipe (handle 31) is drained before the wait and the stdout pipe (handle 21)
    is not read. -/
theorem requested_streams_drained_before_wait_witness :
    drained_before_wait 31
      (workarounds_spawn_sync none [[112]] false true true env_hello).final.trace = true ∧
    (workarounds_spawn_sync none [[112]] false true true env_hello).final.trace.any
      (Event.is_read_of 21) = false :=
  ⟨(requested_streams_drained_before_wait none [[112]] false true true env_hello (21, 22)
      (31, 32) (by decide) (by simp [Env.process_created, env_hello]) rfl rfl
      (by decide)).2.1 rfl (fun _ => rfl),
   (requested_streams_drained_before_wait none [[112]] false true true env_hello (21, 22)
      (31, 32) (by decide) (by simp [Env.process_created, env_hello]) rfl rfl
      (by decide)).2.2.1 rfl⟩

end Spawn
